import Mathlib

/-!
Verification of the FFI boundary layer of a native file-dialog binding
(`src/lib.rs`).  The native dialog library is an external collaborator; it is
modelled as an oracle (`NativeLayer`) describing what the one native dialog
call of an invocation returns.  `open_dialog` is a direct shallow embedding of
the source function; alongside its result it produces the ordered trace of
native calls it makes, so that claims about which native entry points are
invoked (and in which order) are statable.

Strings crossing the boundary are modelled as byte sequences (`List Nat`);
UTF-8 lossy decoding (`to_string_lossy`) is abstracted as the identity on the
byte sequence.
-/

set_option autoImplicit false

namespace Nfd

/-- Byte strings as they cross the FFI boundary. -/
abbrev Bytes := List Nat

/-- `enum DialogType` from the source (`SingleFile`, `MultipleFiles`,
`SaveFile`). -/
inductive DialogType where
  | SingleFile
  | MultipleFiles
  | SaveFile
deriving DecidableEq, Repr

/-- The native tri-state status code `nfdresult_t`. -/
inductive nfdresult_t where
  | NFD_OKAY
  | NFD_CANCEL
  | NFD_ERROR
deriving DecidableEq, Repr

/-- `enum Response` from the source: `Okay(String)`, `OkayMultiple(Vec<String>)`,
`Cancel`. -/
inductive Response where
  | Okay (path : Bytes)
  | OkayMultiple (paths : List Bytes)
  | Cancel
deriving DecidableEq, Repr

/-- Modelled from the spec: the error type of the missing `error.rs` module.
The spec gives exactly two failure kinds: `EncodingError` (an input string
contained an embedded terminator; produced via `From<NulError>`, so it carries
the nul position) and `NativeError` (message text supplied by the native
library).  Source names kept: `NFDError::NulError`, `NFDError::Error`. -/
inductive NFDError where
  | NulError (pos : Nat)
  | Error (msg : Bytes)
deriving DecidableEq, Repr

/-- One native entry point invocation, with the pointer arguments that matter
to the claims.  `none` stands for a null pointer; `some buf` records the
null-terminated buffer the pointer refers to. -/
inductive NativeCall where
  | NFD_OpenDialog (filter default_path : Option Bytes)
  | NFD_OpenDialogMultiple (filter default_path : Option Bytes)
  | NFD_SaveDialog (filter default_path : Option Bytes)
  | NFD_PathSet_GetCount
  | NFD_PathSet_GetPath (i : Nat)
  | NFD_PathSet_Free
  | NFD_GetError
deriving DecidableEq, Repr

/-- Oracle for the external native dialog library during one invocation:
the status the dialog call returns, the string it writes to the single
out-path slot (single-shape calls, on `NFD_OKAY`), the contents it stores in
the path-set slot (`NFD_OpenDialogMultiple`, on `NFD_OKAY`), and what
`NFD_GetError` would return. -/
structure NativeLayer where
  status : nfdresult_t
  out_path : Bytes
  path_set : List Bytes
  err_msg : Bytes
deriving DecidableEq, Repr

/-- Models `CStr::to_string_lossy().into_owned()`: the native bytes are copied
into an owned host string; UTF-8 lossy replacement is abstracted as the
identity on the byte sequence. -/
def to_string_lossy (b : Bytes) : Bytes := b

/-- Models `CString::new`: fails (with the position of the first interior nul,
as `NulError` does) when the byte string contains an embedded terminator,
otherwise yields the null-terminated buffer. -/
def cstring_new (s : Bytes) : Except Nat Bytes :=
  if 0 ∈ s then Except.error (s.indexOf 0) else Except.ok (s ++ [0])

/-- Reads a null-terminated buffer back as a byte string (what the native
library sees through the pointer). -/
def cstr_read (buf : Bytes) : Bytes := buf.takeWhile (fun b => b != 0)

/-- The `match filter_list { Some(s) => try!(CString::new(s)).as_ptr(),
None => null }` step of `open_dialog`, for one optional input: `none` becomes
a null pointer, `some s` becomes a pointer to the encoded buffer, and an
interior nul aborts with `NFDError::NulError` (via `try!`). -/
def encode_opt (o : Option Bytes) : Except NFDError (Option Bytes) :=
  match o with
  | none => Except.ok none
  | some s =>
    match cstring_new s with
    | Except.error p => Except.error (NFDError.NulError p)
    | Except.ok buf => Except.ok (some buf)

/-- Boolean success predicate for `encode_opt` (no embedded terminator). -/
def enc_ok : Option Bytes → Bool
  | none => true
  | some s => decide (0 ∉ s)

/-- The pointer `encode_opt` yields on success. -/
def encode_ptr (o : Option Bytes) : Option Bytes := o.map (fun s => s ++ [0])

/-- Which native dialog entry point `open_dialog`'s `match dialog_type`
dispatches to. -/
def dialog_call (dialog_type : DialogType) (filter_ptr default_path_ptr : Option Bytes) :
    NativeCall :=
  match dialog_type with
  | DialogType.SingleFile => NativeCall.NFD_OpenDialog filter_ptr default_path_ptr
  | DialogType.MultipleFiles => NativeCall.NFD_OpenDialogMultiple filter_ptr default_path_ptr
  | DialogType.SaveFile => NativeCall.NFD_SaveDialog filter_ptr default_path_ptr

/-- Shallow embedding of `fn open_dialog` from `src/lib.rs`, paired with the
ordered trace of native calls it performs.

The two optional inputs are encoded first (filter, then default path); an
encoding failure returns before any native call, so the trace is empty.  The
single dialog call is then made.  The `out_path` slot holds what the native
call wrote on success of a single-shape call; the `out_multiple` slot starts
as `nfdpathset_t::default()` — a zeroed struct whose count is 0 (its `Default`
impl lives in the source's `ffi` module; per the spec the native library
populates the collection only when the multi-open call succeeds) — and holds
the native path set exactly when the `MultipleFiles` call returned `NFD_OKAY`.

On `NFD_OKAY` the source tests `dialog_type == DialogType::SingleFile`: only
`SingleFile` reads `out_path`; every other mode (including `SaveFile`) reads
the path-set slot via `NFD_PathSet_GetCount` / `NFD_PathSet_GetPath`, pushes
the entries in ascending index order, then calls `NFD_PathSet_Free` once.
`NFD_CANCEL` returns `Response::Cancel`; `NFD_ERROR` reads `NFD_GetError` and
fails with that message. -/
def open_dialog (native : NativeLayer) (filter_list default_path : Option Bytes)
    (dialog_type : DialogType) : Except NFDError Response × List NativeCall :=
  match encode_opt filter_list with
  | Except.error e => (Except.error e, [])
  | Except.ok filter_list_ptr =>
    match encode_opt default_path with
    | Except.error e => (Except.error e, [])
    | Except.ok default_path_ptr =>
      let result := native.status
      let out_path : Bytes := native.out_path
      let out_multiple : List Bytes :=
        if dialog_type = DialogType.MultipleFiles ∧ result = nfdresult_t.NFD_OKAY then
          native.path_set
        else []
      let call := dialog_call dialog_type filter_list_ptr default_path_ptr
      match result with
      | nfdresult_t.NFD_OKAY =>
        if dialog_type = DialogType.SingleFile then
          (Except.ok (Response.Okay (to_string_lossy out_path)), [call])
        else
          let count := out_multiple.length
          let res := (List.range count).map (fun i => to_string_lossy (out_multiple.get! i))
          (Except.ok (Response.OkayMultiple res),
            [call, NativeCall.NFD_PathSet_GetCount]
              ++ (List.range count).map (fun i => NativeCall.NFD_PathSet_GetPath i)
              ++ [NativeCall.NFD_PathSet_Free])
      | nfdresult_t.NFD_CANCEL => (Except.ok Response.Cancel, [call])
      | nfdresult_t.NFD_ERROR =>
        (Except.error (NFDError.Error (to_string_lossy native.err_msg)),
          [call, NativeCall.NFD_GetError])

/-- `pub fn open_file_dialog`. -/
def open_file_dialog (native : NativeLayer) (filter_list default_path : Option Bytes) :
    Except NFDError Response × List NativeCall :=
  open_dialog native filter_list default_path DialogType.SingleFile

/-- `pub fn open_file_multiple_dialog`. -/
def open_file_multiple_dialog (native : NativeLayer) (filter_list default_path : Option Bytes) :
    Except NFDError Response × List NativeCall :=
  open_dialog native filter_list default_path DialogType.MultipleFiles

/-- `pub fn open_save_dialog`. -/
def open_save_dialog (native : NativeLayer) (filter_list default_path : Option Bytes) :
    Except NFDError Response × List NativeCall :=
  open_dialog native filter_list default_path DialogType.SaveFile

/-- `pub struct DialogBuilder` (the two optional borrowed strings). -/
structure DialogBuilder where
  filter : Option Bytes
  default_path : Option Bytes
deriving DecidableEq, Repr

/-- Builder setter `DialogBuilder::filter` (renamed: the field projection
already carries the source name). -/
def DialogBuilder.set_filter (b : DialogBuilder) (f : Bytes) : DialogBuilder :=
  { b with filter := some f }

/-- Builder setter `DialogBuilder::default_path` (renamed: the field
projection already carries the source name). -/
def DialogBuilder.set_default_path (b : DialogBuilder) (p : Bytes) : DialogBuilder :=
  { b with default_path := some p }

/-- `DialogBuilder::open`. -/
def DialogBuilder.open (b : DialogBuilder) (native : NativeLayer) :
    Except NFDError Response × List NativeCall :=
  open_file_dialog native b.filter b.default_path

/-- `DialogBuilder::open_multiple`. -/
def DialogBuilder.open_multiple (b : DialogBuilder) (native : NativeLayer) :
    Except NFDError Response × List NativeCall :=
  open_file_multiple_dialog native b.filter b.default_path

/-- `DialogBuilder::save`. -/
def DialogBuilder.save (b : DialogBuilder) (native : NativeLayer) :
    Except NFDError Response × List NativeCall :=
  open_save_dialog native b.filter b.default_path

/-- `pub fn dialog()`: the fresh, unconfigured builder. -/
def dialog : DialogBuilder :=
  { filter := none, default_path := none }

/-- Is this native call one of the path-set accessors or the destructor? -/
def is_path_set_call : NativeCall → Bool
  | NativeCall.NFD_PathSet_GetCount => true
  | NativeCall.NFD_PathSet_GetPath _ => true
  | NativeCall.NFD_PathSet_Free => true
  | _ => false

end Nfd

namespace Nfd

/-! ## Shared lemmas -/

/-- Successful encoding: with no embedded terminator, `encode_opt` yields the
null-terminated buffer pointer (`encode_ptr`). -/
theorem encode_opt_ok (o : Option Bytes) (h : enc_ok o = true) :
    encode_opt o = Except.ok (encode_ptr o) := by
  cases o with
  | none => rfl
  | some s =>
    have hm : 0 ∉ s := by simpa [enc_ok] using h
    simp [encode_opt, cstring_new, encode_ptr, if_neg hm]

/-- An `encode_opt` failure is always a `NulError`. -/
theorem encode_opt_error_shape (o : Option Bytes) (e : NFDError)
    (h : encode_opt o = Except.error e) : ∃ p, e = NFDError.NulError p := by
  cases o with
  | none => simp [encode_opt] at h
  | some s =>
    by_cases hm : 0 ∈ s
    · refine ⟨s.indexOf 0, ?_⟩
      simp [encode_opt, cstring_new, if_pos hm] at h
      exact h.symm
    · simp [encode_opt, cstring_new, if_neg hm] at h

/-- Reading a list entry at each index of `List.range` reproduces the list. -/
theorem range_map_get_bang (l : List Bytes) :
    (List.range l.length).map (fun i => l[i]!) = l := by
  induction l with
  | nil => rfl
  | cons a l ih =>
    rw [List.length_cons, List.range_succ_eq_map, List.map_cons, List.map_map]
    have h : ((fun i => (a :: l)[i]!) ∘ Nat.succ) = (fun i => l[i]!) := by
      funext i
      simp [Function.comp]
    simp [h, ih]

/-- Full characterization of `open_dialog` in `MultipleFiles` mode when the
inputs encode and the native call returns `NFD_OKAY`. -/
theorem open_dialog_multi_okay (native : NativeLayer) (fl dp : Option Bytes)
    (hfl : enc_ok fl = true) (hdp : enc_ok dp = true)
    (hs : native.status = nfdresult_t.NFD_OKAY) :
    open_dialog native fl dp DialogType.MultipleFiles =
      (Except.ok (Response.OkayMultiple native.path_set),
        [NativeCall.NFD_OpenDialogMultiple (encode_ptr fl) (encode_ptr dp),
         NativeCall.NFD_PathSet_GetCount]
          ++ (List.range native.path_set.length).map NativeCall.NFD_PathSet_GetPath
          ++ [NativeCall.NFD_PathSet_Free]) := by
  simp [open_dialog, encode_opt_ok fl hfl, encode_opt_ok dp hdp, hs, dialog_call,
    to_string_lossy, range_map_get_bang]

/-- The destroy call never appears among the indexed read calls. -/
theorem count_free_in_get_paths (n : Nat) :
    ((List.range n).map NativeCall.NFD_PathSet_GetPath).count
      NativeCall.NFD_PathSet_Free = 0 := by
  rw [List.count_eq_zero]
  intro hmem
  simp [List.mem_map] at hmem

end Nfd

namespace Nfd

/-! ## Claim theorems -/

/-- C1: in `SaveFile` mode with native status `NFD_OKAY` and the saved path
written to the out-path slot, the function does NOT return
`Response::Okay(path)`: the `dialog_type == SingleFile` test routes `SaveFile`
into the path-set branch, so it returns `Response::OkayMultiple []` decoded
from the default (never populated) path set, ignoring `out_path`, and even
calls the path-set accessors and destructor. -/
theorem save_okay_misroutes_to_pathset_branch :
    open_dialog ⟨nfdresult_t.NFD_OKAY, [47, 116, 109, 112], [], []⟩ none none
        DialogType.SaveFile
      = (Except.ok (Response.OkayMultiple []),
         [NativeCall.NFD_SaveDialog none none, NativeCall.NFD_PathSet_GetCount,
          NativeCall.NFD_PathSet_Free]) ∧
    (open_dialog ⟨nfdresult_t.NFD_OKAY, [47, 116, 109, 112], [], []⟩ none none
        DialogType.SaveFile).1
      ≠ Except.ok (Response.Okay [47, 116, 109, 112]) :=
  ⟨rfl, fun hc => Response.noConfusion (Except.ok.inj hc)⟩

/-- C2: if the filter string or the default-path string contains an embedded
terminator byte, the call fails with `NFDError::NulError` (the encoding
error) and the native-call trace is empty: no native call is attempted and no
partial result is produced. -/
theorem embedded_nul_fails_before_any_native_call (native : NativeLayer)
    (filter_list default_path : Option Bytes) (dialog_type : DialogType)
    (h : (∃ f, filter_list = some f ∧ 0 ∈ f) ∨ (∃ d, default_path = some d ∧ 0 ∈ d)) :
    (∃ p, (open_dialog native filter_list default_path dialog_type).1
        = Except.error (NFDError.NulError p)) ∧
    (open_dialog native filter_list default_path dialog_type).2 = [] := by
  rcases h with ⟨f, hfl, hmem⟩ | ⟨d, hdp, hmem⟩
  · subst hfl
    refine ⟨⟨f.indexOf 0, ?_⟩, ?_⟩ <;>
      simp [open_dialog, encode_opt, cstring_new, if_pos hmem]
  · cases hfe : encode_opt filter_list with
    | error e =>
      obtain ⟨p, rfl⟩ := encode_opt_error_shape _ _ hfe
      exact ⟨⟨p, by simp [open_dialog, hfe]⟩, by simp [open_dialog, hfe]⟩
    | ok ptr =>
      subst hdp
      have hde : encode_opt (some d) = Except.error (NFDError.NulError (d.indexOf 0)) := by
        simp [encode_opt, cstring_new, if_pos hmem]
      refine ⟨⟨d.indexOf 0, ?_⟩, ?_⟩ <;>
        simp [open_dialog, hfe, hde]

/-- Witness for C2 at a concrete input: filter `[65, 0]` has an embedded
terminator at index 1. -/
theorem embedded_nul_fails_witness :
    (∃ p, (open_dialog ⟨nfdresult_t.NFD_OKAY, [], [], []⟩ (some [65, 0]) none
        DialogType.SingleFile).1 = Except.error (NFDError.NulError p)) ∧
    (open_dialog ⟨nfdresult_t.NFD_OKAY, [], [], []⟩ (some [65, 0]) none
        DialogType.SingleFile).2 = [] :=
  embedded_nul_fails_before_any_native_call _ _ _ _ (Or.inl ⟨[65, 0], rfl, by decide⟩)

/-- C3: whatever the dialog mode, when the inputs encode and the native call
returns `NFD_CANCEL`, the function returns `Response::Cancel` and the
collection-destroy function is called zero times. -/
theorem cancel_returns_cancel_no_free (native : NativeLayer) (fl dp : Option Bytes)
    (t : DialogType) (hfl : enc_ok fl = true) (hdp : enc_ok dp = true)
    (hs : native.status = nfdresult_t.NFD_CANCEL) :
    (open_dialog native fl dp t).1 = Except.ok Response.Cancel ∧
    (open_dialog native fl dp t).2.count NativeCall.NFD_PathSet_Free = 0 := by
  have h1 := encode_opt_ok fl hfl
  have h2 := encode_opt_ok dp hdp
  constructor <;> cases t <;>
    simp [open_dialog, h1, h2, hs, dialog_call, List.count_cons, List.count_nil]

/-- Witness for C3 at a concrete input: `MultipleFiles` mode with a filter,
native returns `NFD_CANCEL`. -/
theorem cancel_returns_cancel_witness :
    (open_dialog ⟨nfdresult_t.NFD_CANCEL, [], [], []⟩ (some [70]) none
        DialogType.MultipleFiles).1 = Except.ok Response.Cancel ∧
    (open_dialog ⟨nfdresult_t.NFD_CANCEL, [], [], []⟩ (some [70]) none
        DialogType.MultipleFiles).2.count NativeCall.NFD_PathSet_Free = 0 :=
  cancel_returns_cancel_no_free _ _ _ _ (by decide) rfl rfl

end Nfd

namespace Nfd

/-- C4: in `MultipleFiles` mode, when the inputs encode and the native call
returns `NFD_OKAY` with the path set holding its entries at indices
`[0, N)`, the function returns `Response::OkayMultiple` with exactly those
entries in ascending index order; the native-call trace is the dialog call,
one count read, the `N` indexed reads in ascending order, and then the
collection-destroy call — which therefore occurs exactly once, after all `N`
reads. -/
theorem multiple_okay_in_order_free_once_after (native : NativeLayer)
    (fl dp : Option Bytes) (hfl : enc_ok fl = true) (hdp : enc_ok dp = true)
    (hs : native.status = nfdresult_t.NFD_OKAY) :
    (open_dialog native fl dp DialogType.MultipleFiles).1
        = Except.ok (Response.OkayMultiple native.path_set) ∧
    (open_dialog native fl dp DialogType.MultipleFiles).2
        = [NativeCall.NFD_OpenDialogMultiple (encode_ptr fl) (encode_ptr dp),
           NativeCall.NFD_PathSet_GetCount]
          ++ (List.range native.path_set.length).map NativeCall.NFD_PathSet_GetPath
          ++ [NativeCall.NFD_PathSet_Free] ∧
    (open_dialog native fl dp DialogType.MultipleFiles).2.count
        NativeCall.NFD_PathSet_Free = 1 := by
  have h := open_dialog_multi_okay native fl dp hfl hdp hs
  refine ⟨by rw [h], by rw [h], ?_⟩
  rw [h]
  simp [List.count_append, List.count_cons, count_free_in_get_paths]

/-- Witness for C4 at a concrete input: two selected paths. -/
theorem multiple_okay_in_order_witness :
    (open_dialog ⟨nfdresult_t.NFD_OKAY, [], [[97], [98, 99]], []⟩ (some [70]) none
        DialogType.MultipleFiles).1
        = Except.ok (Response.OkayMultiple [[97], [98, 99]]) ∧
    (open_dialog ⟨nfdresult_t.NFD_OKAY, [], [[97], [98, 99]], []⟩ (some [70]) none
        DialogType.MultipleFiles).2
        = [NativeCall.NFD_OpenDialogMultiple (encode_ptr (some [70])) (encode_ptr none),
           NativeCall.NFD_PathSet_GetCount]
          ++ (List.range ([[97], [98, 99]] : List Bytes).length).map
              NativeCall.NFD_PathSet_GetPath
          ++ [NativeCall.NFD_PathSet_Free] ∧
    (open_dialog ⟨nfdresult_t.NFD_OKAY, [], [[97], [98, 99]], []⟩ (some [70]) none
        DialogType.MultipleFiles).2.count NativeCall.NFD_PathSet_Free = 1 :=
  multiple_okay_in_order_free_once_after _ _ _ (by decide) rfl rfl

/-- C5: in `MultipleFiles` mode, when the inputs encode and the native call
returns `NFD_OKAY` with a path-set count of zero, the function returns
`Response::OkayMultiple []` — not `Response::Cancel` — and the
collection-destroy function is still called exactly once. -/
theorem multiple_okay_empty_not_cancel (native : NativeLayer)
    (fl dp : Option Bytes) (hfl : enc_ok fl = true) (hdp : enc_ok dp = true)
    (hs : native.status = nfdresult_t.NFD_OKAY)
    (hempty : native.path_set = []) :
    (open_dialog native fl dp DialogType.MultipleFiles).1
        = Except.ok (Response.OkayMultiple []) ∧
    (open_dialog native fl dp DialogType.MultipleFiles).1
        ≠ Except.ok Response.Cancel ∧
    (open_dialog native fl dp DialogType.MultipleFiles).2.count
        NativeCall.NFD_PathSet_Free = 1 := by
  have h := open_dialog_multi_okay native fl dp hfl hdp hs
  rw [hempty] at h
  refine ⟨by rw [h], ?_, ?_⟩
  · rw [h]
    exact fun hc => Response.noConfusion (Except.ok.inj hc)
  · rw [h]
    simp [List.count_append, List.count_cons]

/-- Witness for C5 at a concrete input: empty path set. -/
theorem multiple_okay_empty_witness :
    (open_dialog ⟨nfdresult_t.NFD_OKAY, [], [], []⟩ none (some [47]) 
        DialogType.MultipleFiles).1 = Except.ok (Response.OkayMultiple []) ∧
    (open_dialog ⟨nfdresult_t.NFD_OKAY, [], [], []⟩ none (some [47])
        DialogType.MultipleFiles).1 ≠ Except.ok Response.Cancel ∧
    (open_dialog ⟨nfdresult_t.NFD_OKAY, [], [], []⟩ none (some [47])
        DialogType.MultipleFiles).2.count NativeCall.NFD_PathSet_Free = 1 :=
  multiple_okay_empty_not_cancel _ _ _ rfl (by decide) rfl rfl

/-- C6: whatever the dialog mode, when the inputs encode and the native call
returns `NFD_ERROR`, the function queries `NFD_GetError`, fails with that
message as an owned host string, and the trace consists of the dialog call
followed only by the `NFD_GetError` query — no collection-destroy call, and
no native call after the error query. -/
theorem error_returns_native_message (native : NativeLayer) (fl dp : Option Bytes)
    (t : DialogType) (hfl : enc_ok fl = true) (hdp : enc_ok dp = true)
    (hs : native.status = nfdresult_t.NFD_ERROR) :
    (open_dialog native fl dp t).1 = Except.error (NFDError.Error native.err_msg) ∧
    (open_dialog native fl dp t).2
        = [dialog_call t (encode_ptr fl) (encode_ptr dp), NativeCall.NFD_GetError] ∧
    (open_dialog native fl dp t).2.count NativeCall.NFD_PathSet_Free = 0 := by
  have h1 := encode_opt_ok fl hfl
  have h2 := encode_opt_ok dp hdp
  refine ⟨?_, ?_, ?_⟩ <;> cases t <;>
    simp [open_dialog, h1, h2, hs, dialog_call, to_string_lossy,
      List.count_cons, List.count_nil]

/-- Witness for C6 at a concrete input: `MultipleFiles` mode, native error
message `[101, 114, 114]`. -/
theorem error_returns_native_message_witness :
    (open_dialog ⟨nfdresult_t.NFD_ERROR, [], [], [101, 114, 114]⟩ none none
        DialogType.MultipleFiles).1
        = Except.error (NFDError.Error [101, 114, 114]) ∧
    (open_dialog ⟨nfdresult_t.NFD_ERROR, [], [], [101, 114, 114]⟩ none none
        DialogType.MultipleFiles).2
        = [dialog_call DialogType.MultipleFiles (encode_ptr none) (encode_ptr none),
           NativeCall.NFD_GetError] ∧
    (open_dialog ⟨nfdresult_t.NFD_ERROR, [], [], [101, 114, 114]⟩ none none
        DialogType.MultipleFiles).2.count NativeCall.NFD_PathSet_Free = 0 :=
  error_returns_native_message _ _ _ _ rfl rfl rfl

/-- A byte string with no embedded terminator reads back unchanged from its
null-terminated buffer. -/
theorem cstr_read_append (s : Bytes) (h : 0 ∉ s) : cstr_read (s ++ [0]) = s := by
  induction s with
  | nil => rfl
  | cons a s ih =>
    have ha : a ≠ 0 := fun hv => h (hv ▸ List.mem_cons_self a s)
    have hs : 0 ∉ s := fun hv => h (List.mem_cons_of_mem a hv)
    simp only [cstr_read, List.cons_append, List.takeWhile_cons] at ih ⊢
    simp [ha, ih hs]

/-- C7: for filter and default-path strings with no terminator byte, encoding
succeeds, producing null-terminated buffers whose content — read back as a
null-terminated byte string — round-trips to the original inputs; an absent
option is encoded as a null pointer. -/
theorem encoding_round_trip (f d : Bytes) (hf : 0 ∉ f) (hd : 0 ∉ d) :
    encode_opt (some f) = Except.ok (some (f ++ [0])) ∧
    cstr_read (f ++ [0]) = f ∧
    encode_opt (some d) = Except.ok (some (d ++ [0])) ∧
    cstr_read (d ++ [0]) = d ∧
    encode_opt none = Except.ok none := by
  refine ⟨?_, cstr_read_append f hf, ?_, cstr_read_append d hd, rfl⟩
  · simp [encode_opt, cstring_new, if_neg hf]
  · simp [encode_opt, cstring_new, if_neg hd]

/-- Witness for C7 at concrete inputs. -/
theorem encoding_round_trip_witness :
    encode_opt (some [65]) = Except.ok (some ([65] ++ [0])) ∧
    cstr_read ([65] ++ [0]) = [65] ∧
    encode_opt (some [47, 104]) = Except.ok (some ([47, 104] ++ [0])) ∧
    cstr_read ([47, 104] ++ [0]) = [47, 104] ∧
    encode_opt none = Except.ok none :=
  encoding_round_trip [65] [47, 104] (by decide) (by decide)

end Nfd

namespace Nfd

/-- C8: the builder methods `open`, `open_multiple` and `save` on a
`DialogBuilder` return exactly what the free functions `open_file_dialog`,
`open_file_multiple_dialog` and `open_save_dialog` return on the builder's
stored `filter` and `default_path` — the source methods delegate verbatim. -/
theorem builder_delegates_to_free_functions (native : NativeLayer) (b : DialogBuilder) :
    b.open native = open_file_dialog native b.filter b.default_path ∧
    b.open_multiple native = open_file_multiple_dialog native b.filter b.default_path ∧
    b.save native = open_save_dialog native b.filter b.default_path :=
  ⟨rfl, rfl, rfl⟩

/-- C9: `dialog()` constructs a builder with both options absent, so any of
the three dialog invocations from the fresh builder makes its native dialog
call with a null filter pointer and a null default-path pointer (the first —
and leading — native call of each trace carries `none` for both). -/
theorem fresh_builder_passes_null_pointers (native : NativeLayer) :
    dialog.filter = none ∧ dialog.default_path = none ∧
    (∃ r, (dialog.open native).2 = NativeCall.NFD_OpenDialog none none :: r) ∧
    (∃ r, (dialog.open_multiple native).2
        = NativeCall.NFD_OpenDialogMultiple none none :: r) ∧
    (∃ r, (dialog.save native).2 = NativeCall.NFD_SaveDialog none none :: r) := by
  refine ⟨rfl, rfl, ?_, ?_, ?_⟩ <;>
    cases hs : native.status <;>
      simp [dialog, DialogBuilder.open, DialogBuilder.open_multiple, DialogBuilder.save,
        open_file_dialog, open_file_multiple_dialog, open_save_dialog,
        open_dialog, encode_opt, dialog_call, hs]

/-- C10: in `SingleFile` mode, whatever the native status and whatever the
inputs, the trace contains no path-set call at all: neither `GetCount` nor
`GetPath` nor the collection-destroy `Free` is ever made, so the collection
slot is never touched after its default initialization. -/
theorem single_file_never_touches_path_set (native : NativeLayer)
    (fl dp : Option Bytes) :
    ((open_dialog native fl dp DialogType.SingleFile).2.all
        (fun c => !(is_path_set_call c))) = true := by
  cases hf : encode_opt fl with
  | error e => simp [open_dialog, hf]
  | ok p =>
    cases hd : encode_opt dp with
    | error e => simp [open_dialog, hf, hd]
    | ok q =>
      cases hs : native.status <;>
        simp [open_dialog, hf, hd, hs, dialog_call, is_path_set_call]

end Nfd
